import Mathlib

set_option autoImplicit false

/-!
Shallow embedding of the globe-chart visualization pipeline of the
`enviromental-front` Angular application, together with proofs about it.

The embedded code lives in:
* `src/app/components/charts/globe-chart/globe-chart.component.ts`
* `src/app/utils/country-coordinates.ts`

Numbers are modelled as exact rationals.  Where JavaScript division can
produce the special values NaN and Infinity (the component divides by a
computed maximum with no zero guard), the result type `JSNum` records
those special values explicitly: for finite operands, JavaScript yields
NaN exactly on 0/0 and a signed infinity on x/0 with x nonzero, which is
what `jsDivQ` below implements.  Floating-point rounding itself is
abstracted away (all constants in the source are treated exactly).
-/

namespace GlobeChart

/-- A JavaScript number that is either a finite value (modelled as a
rational), NaN, or a signed infinity. -/
inductive JSNum where
  | num (q : ℚ)
  | nan
  | posInf
  | negInf
deriving DecidableEq, Repr

/-- JavaScript division `a / b` for finite operands `a`, `b`:
`0/0` is NaN, `x/0` with `x ≠ 0` is a signed infinity, otherwise exact. -/
def jsDivQ (a b : ℚ) : JSNum :=
  if b = 0 then
    if a = 0 then JSNum.nan
    else if 0 < a then JSNum.posInf
    else JSNum.negInf
  else JSNum.num (a / b)

/-- JavaScript multiplication of a (possibly special) number by a finite
constant, as used in `size = 0.05 + normalizedEmissions * 0.3`. -/
def jsMulQ : JSNum → ℚ → JSNum
  | JSNum.num a, c => JSNum.num (a * c)
  | JSNum.nan, _ => JSNum.nan
  | JSNum.posInf, c =>
      if 0 < c then JSNum.posInf else if c < 0 then JSNum.negInf else JSNum.nan
  | JSNum.negInf, c =>
      if 0 < c then JSNum.negInf else if c < 0 then JSNum.posInf else JSNum.nan

/-- JavaScript addition of a finite constant to a (possibly special)
number, as used in `size = 0.05 + normalizedEmissions * 0.3`. -/
def jsAddQ (c : ℚ) : JSNum → JSNum
  | JSNum.num a => JSNum.num (c + a)
  | JSNum.nan => JSNum.nan
  | JSNum.posInf => JSNum.posInf
  | JSNum.negInf => JSNum.negInf

/-- The JavaScript strict-less-than comparison: any comparison involving
NaN is false. -/
def jsLt : JSNum → JSNum → Bool
  | JSNum.num a, JSNum.num b => a < b
  | JSNum.nan, _ => false
  | _, JSNum.nan => false
  | JSNum.negInf, JSNum.negInf => false
  | JSNum.negInf, _ => true
  | _, JSNum.negInf => false
  | JSNum.posInf, _ => false
  | JSNum.num _, JSNum.posInf => true

/-- The exact value of the JavaScript double constant `Math.PI`
(`0x400921FB54442D18`), i.e. `884279719003555 / 2^48`. -/
def mathPI : ℚ := 884279719003555 / 281474976710656

/-- One emission record, after the `Emission` interface of
`models/emission.model.ts`.  The `emission_type`, `activity` and
`created_at` fields are carried as plain strings; only `country` and
`emissions` are read by the globe pipeline. -/
structure Emission where
  id : ℤ
  year : ℤ
  emissions : ℚ
  country : String
  emission_type : String
  activity : String
  created_at : String
deriving DecidableEq, Repr

/-- The per-country rollup value stored in the aggregation `Map`:
`{ country, totalEmissions, count }`. -/
structure CountryRollup where
  country : String
  totalEmissions : ℚ
  count : ℕ
deriving DecidableEq, Repr

/-- The aggregation `Map<string, CountryRollup>`, modelled as an
association list in insertion order (a JavaScript `Map` iterates its
entries in insertion order). -/
abbrev CountryMap := List (String × CountryRollup)

/-- `Map.get`: the value stored under a key, if any. -/
def mapLookup : CountryMap → String → Option CountryRollup
  | [], _ => none
  | (k, v) :: rest, c => if k = c then some v else mapLookup rest c

/-- In-place update of the value stored under an existing key, leaving
every other entry and the entry order unchanged (the source mutates the
existing rollup object). -/
def mapUpdate (f : CountryRollup → CountryRollup) : CountryMap → String → CountryMap
  | [], _ => []
  | (k, v) :: rest, c =>
      if k = c then (k, f v) :: rest else (k, v) :: mapUpdate f rest c

/-- The body of the `forEach` loop of `aggregateEmissionsByCountry`:
if the record's country is already present, add the record's emissions to
the stored total and bump the count; otherwise append a fresh rollup
`{ country, totalEmissions: emissions, count: 1 }` (a `Map.set` of a new
key appends in iteration order). -/
def aggInsert (m : CountryMap) (e : Emission) : CountryMap :=
  match mapLookup m e.country with
  | some _ =>
      mapUpdate
        (fun r =>
          { r with totalEmissions := r.totalEmissions + e.emissions, count := r.count + 1 })
        m e.country
  | none => m ++ [(e.country, ⟨e.country, e.emissions, 1⟩)]

/-- The `forEach` loop of `aggregateEmissionsByCountry`, as a left fold
over the record list with the map as accumulator. -/
def aggLoop : CountryMap → List Emission → CountryMap
  | m, [] => m
  | m, e :: rest => aggLoop (aggInsert m e) rest

/-- `aggregateEmissionsByCountry` (globe-chart.component.ts, lines
235-258): fold the records into a fresh empty map. -/
def aggregateEmissionsByCountry (emissions : List Emission) : CountryMap :=
  aggLoop [] emissions

/-- Specification-side sum: total `emissions` of the records whose
`country` equals `c`. -/
def emissionsSumFor (c : String) (es : List Emission) : ℚ :=
  ((es.filter (fun e => e.country = c)).map (fun e => e.emissions)).sum

/-- Specification-side count: number of records whose `country` equals
`c`. -/
def recordCountFor (c : String) (es : List Emission) : ℕ :=
  (es.filter (fun e => e.country = c)).length

@[simp] theorem emissionsSumFor_nil (c : String) : emissionsSumFor c [] = 0 := rfl

@[simp] theorem recordCountFor_nil (c : String) : recordCountFor c [] = 0 := rfl

theorem emissionsSumFor_cons (c : String) (e : Emission) (es : List Emission) :
    emissionsSumFor c (e :: es) =
      if e.country = c then e.emissions + emissionsSumFor c es else emissionsSumFor c es := by
  by_cases h : e.country = c <;> simp [emissionsSumFor, h]

theorem recordCountFor_cons (c : String) (e : Emission) (es : List Emission) :
    recordCountFor c (e :: es) =
      if e.country = c then recordCountFor c es + 1 else recordCountFor c es := by
  by_cases h : e.country = c <;> simp [recordCountFor, h]

theorem mapLookup_append_single (m : CountryMap) (k : String) (v : CountryRollup)
    (c : String) :
    mapLookup (m ++ [(k, v)]) c =
      match mapLookup m c with
      | some r => some r
      | none => if k = c then some v else none := by
  induction m with
  | nil => simp [mapLookup]
  | cons hd tl ih =>
      obtain ⟨k', v'⟩ := hd
      by_cases h : k' = c <;> simp [mapLookup, h, ih]

theorem mapLookup_mapUpdate (f : CountryRollup → CountryRollup) (m : CountryMap)
    (c c' : String) :
    mapLookup (mapUpdate f m c) c' =
      if c = c' then (mapLookup m c').map f
      else mapLookup m c' := by
  induction m with
  | nil => simp [mapLookup, mapUpdate]
  | cons hd tl ih =>
      obtain ⟨k, v⟩ := hd
      by_cases hk : k = c
      · subst hk
        by_cases h' : k = c' <;> simp_all [mapLookup, mapUpdate]
      · by_cases h' : k = c' <;> by_cases hcc : c = c' <;>
          simp_all [mapLookup, mapUpdate]

theorem mapLookup_aggInsert (m : CountryMap) (e : Emission) (c : String) :
    mapLookup (aggInsert m e) c =
      if e.country = c then
        match mapLookup m c with
        | some r =>
            some { r with totalEmissions := r.totalEmissions + e.emissions,
                          count := r.count + 1 }
        | none => some ⟨e.country, e.emissions, 1⟩
      else mapLookup m c := by
  unfold aggInsert
  by_cases hc : e.country = c
  · subst hc
    cases hm : mapLookup m e.country with
    | none => simp [hm, mapLookup_append_single]
    | some r => simp [hm, mapLookup_mapUpdate]
  · cases hm : mapLookup m e.country with
    | none =>
        simp only [hm, mapLookup_append_single]
        cases hmc : mapLookup m c with
        | none => simp [hc]
        | some r => simp [hc]
    | some r =>
        simp [hm, mapLookup_mapUpdate, hc]

/-- The running invariant of the aggregation loop: looking a country up
in the final map extends whatever the accumulator already stored by the
sums over the remaining records. -/
theorem mapLookup_aggLoop (es : List Emission) :
    ∀ (m : CountryMap) (c : String),
      mapLookup (aggLoop m es) c =
        match mapLookup m c with
        | some r =>
            some { r with totalEmissions := r.totalEmissions + emissionsSumFor c es,
                          count := r.count + recordCountFor c es }
        | none =>
            if c ∈ es.map (fun e => e.country) then
              some ⟨c, emissionsSumFor c es, recordCountFor c es⟩
            else none := by
  induction es with
  | nil =>
      intro m c
      cases hm : mapLookup m c <;> simp [aggLoop, hm]
  | cons e rest ih =>
      intro m c
      show mapLookup (aggLoop (aggInsert m e) rest) c = _
      rw [ih (aggInsert m e) c, mapLookup_aggInsert]
      rw [emissionsSumFor_cons, recordCountFor_cons]
      by_cases hc : e.country = c
      · subst hc
        cases hm : mapLookup m e.country with
        | some r => simp [hm]; ring_nf; simp [add_comm, add_assoc, add_left_comm]
        | none => simp [hm]; omega
      · cases hm : mapLookup m c with
        | some r => simp [hm, hc]
        | none =>
            simp only [if_neg hc, hm, List.map_cons, List.mem_cons]
            have : ¬ c = e.country := fun h => hc h.symm
            simp [this]

/-- Looking up a country in the aggregation result. -/
theorem mapLookup_aggregate (es : List Emission) (c : String) :
    mapLookup (aggregateEmissionsByCountry es) c =
      if c ∈ es.map (fun e => e.country) then
        some ⟨c, emissionsSumFor c es, recordCountFor c es⟩
      else none := by
  rw [aggregateEmissionsByCountry, mapLookup_aggLoop es [] c]
  simp [mapLookup]

theorem mapLookup_none_iff (m : CountryMap) (c : String) :
    mapLookup m c = none ↔ c ∉ m.map Prod.fst := by
  induction m with
  | nil => simp [mapLookup]
  | cons hd tl ih =>
      obtain ⟨k, v⟩ := hd
      by_cases h : k = c <;> simp_all [mapLookup, eq_comm]

theorem mapUpdate_keys (f : CountryRollup → CountryRollup) (m : CountryMap) (c : String) :
    (mapUpdate f m c).map Prod.fst = m.map Prod.fst := by
  induction m with
  | nil => rfl
  | cons hd tl ih =>
      obtain ⟨k, v⟩ := hd
      by_cases h : k = c <;> simp [mapUpdate, h, ih]

theorem aggInsert_keys_nodup (m : CountryMap) (e : Emission)
    (h : (m.map Prod.fst).Nodup) : ((aggInsert m e).map Prod.fst).Nodup := by
  unfold aggInsert
  cases hm : mapLookup m e.country with
  | some r => simpa [mapUpdate_keys] using h
  | none =>
      have hnot := (mapLookup_none_iff m e.country).mp hm
      simpa [List.nodup_append, hnot] using h

theorem aggLoop_keys_nodup (es : List Emission) :
    ∀ m : CountryMap, (m.map Prod.fst).Nodup → ((aggLoop m es).map Prod.fst).Nodup := by
  induction es with
  | nil => intro m h; simpa [aggLoop] using h
  | cons e rest ih =>
      intro m h
      exact ih (aggInsert m e) (aggInsert_keys_nodup m e h)

/-- C3 core: the aggregation result has no duplicate country keys. -/
theorem aggregate_keys_nodup (es : List Emission) :
    ((aggregateEmissionsByCountry es).map Prod.fst).Nodup :=
  aggLoop_keys_nodup es [] (by simp)

/-- An entry of the country-coordinates table
(`country-coordinates.ts`: interface `CountryCoordinate`). -/
structure CountryCoordinate where
  lat : ℚ
  lng : ℚ
  name : String
deriving DecidableEq, Repr

/-- Build one table entry. -/
def countryCoord (lat lng : ℚ) (name : String) : CountryCoordinate := ⟨lat, lng, name⟩

/-- The full `COUNTRY_COORDINATES` table of `country-coordinates.ts`,
in source order, keyed by upper-case ISO 2-letter code. -/
def COUNTRY_COORDINATES : List (String × CountryCoordinate) :=
  [
    ("US", countryCoord 37.0902 (-95.7129) "United States"),
    ("CA", countryCoord 56.1304 (-106.3468) "Canada"),
    ("MX", countryCoord 23.6345 (-102.5528) "Mexico"),
    ("GB", countryCoord 55.3781 (-3.436) "United Kingdom"),
    ("FR", countryCoord 46.2276 2.2137 "France"),
    ("DE", countryCoord 51.1657 10.4515 "Germany"),
    ("IT", countryCoord 41.8719 12.5674 "Italy"),
    ("ES", countryCoord 40.4637 (-3.7492) "Spain"),
    ("PL", countryCoord 51.9194 19.1451 "Poland"),
    ("RO", countryCoord 45.9432 24.9668 "Romania"),
    ("NL", countryCoord 52.1326 5.2913 "Netherlands"),
    ("BE", countryCoord 50.5039 4.4699 "Belgium"),
    ("GR", countryCoord 39.0742 21.8243 "Greece"),
    ("PT", countryCoord 39.3999 (-8.2245) "Portugal"),
    ("CZ", countryCoord 49.8175 15.473 "Czech Republic"),
    ("HU", countryCoord 47.1625 19.5033 "Hungary"),
    ("SE", countryCoord 60.1282 18.6435 "Sweden"),
    ("AT", countryCoord 47.5162 14.5501 "Austria"),
    ("BG", countryCoord 42.7339 25.4858 "Bulgaria"),
    ("DK", countryCoord 56.2639 9.5018 "Denmark"),
    ("FI", countryCoord 61.9241 25.7482 "Finland"),
    ("SK", countryCoord 48.669 19.699 "Slovakia"),
    ("NO", countryCoord 60.472 8.4689 "Norway"),
    ("IE", countryCoord 53.4129 (-8.2439) "Ireland"),
    ("HR", countryCoord 45.1 15.2 "Croatia"),
    ("LT", countryCoord 55.1694 23.8813 "Lithuania"),
    ("SI", countryCoord 46.1512 14.9955 "Slovenia"),
    ("LV", countryCoord 56.8796 24.6032 "Latvia"),
    ("EE", countryCoord 58.5953 25.0136 "Estonia"),
    ("CH", countryCoord 46.8182 8.2275 "Switzerland"),
    ("RS", countryCoord 44.0165 21.0059 "Serbia"),
    ("UA", countryCoord 48.3794 31.1656 "Ukraine"),
    ("BY", countryCoord 53.7098 27.9534 "Belarus"),
    ("RU", countryCoord 61.524 105.3188 "Russia"),
    ("CN", countryCoord 35.8617 104.1954 "China"),
    ("IN", countryCoord 20.5937 78.9629 "India"),
    ("JP", countryCoord 36.2048 138.2529 "Japan"),
    ("KR", countryCoord 35.9078 127.7669 "South Korea"),
    ("ID", countryCoord (-0.7893) 113.9213 "Indonesia"),
    ("TR", countryCoord 38.9637 35.2433 "Turkey"),
    ("TH", countryCoord 15.87 100.9925 "Thailand"),
    ("SA", countryCoord 23.8859 45.0792 "Saudi Arabia"),
    ("PK", countryCoord 30.3753 69.3451 "Pakistan"),
    ("BD", countryCoord 23.685 90.3563 "Bangladesh"),
    ("VN", countryCoord 14.0583 108.2772 "Vietnam"),
    ("MY", countryCoord 4.2105 101.9758 "Malaysia"),
    ("PH", countryCoord 12.8797 121.774 "Philippines"),
    ("SG", countryCoord 1.3521 103.8198 "Singapore"),
    ("IQ", countryCoord 33.2232 43.6793 "Iraq"),
    ("AF", countryCoord 33.9391 67.7099 "Afghanistan"),
    ("MM", countryCoord 21.9162 95.956 "Myanmar"),
    ("KZ", countryCoord 48.0196 66.9237 "Kazakhstan"),
    ("AE", countryCoord 23.4241 53.8478 "United Arab Emirates"),
    ("IL", countryCoord 31.0461 34.8516 "Israel"),
    ("JO", countryCoord 30.5852 36.2384 "Jordan"),
    ("LK", countryCoord 7.8731 80.7718 "Sri Lanka"),
    ("NP", countryCoord 28.3949 84.124 "Nepal"),
    ("BR", countryCoord (-14.235) (-51.9253) "Brazil"),
    ("AR", countryCoord (-38.4161) (-63.6167) "Argentina"),
    ("CO", countryCoord 4.5709 (-74.2973) "Colombia"),
    ("CL", countryCoord (-35.6751) (-71.543) "Chile"),
    ("PE", countryCoord (-9.19) (-75.0152) "Peru"),
    ("VE", countryCoord 6.4238 (-66.5897) "Venezuela"),
    ("EC", countryCoord (-1.8312) (-78.1834) "Ecuador"),
    ("BO", countryCoord (-16.2902) (-63.5887) "Bolivia"),
    ("PY", countryCoord (-23.4425) (-58.4438) "Paraguay"),
    ("UY", countryCoord (-32.5228) (-55.7658) "Uruguay"),
    ("ZA", countryCoord (-30.5595) 22.9375 "South Africa"),
    ("EG", countryCoord 26.8206 30.8025 "Egypt"),
    ("NG", countryCoord 9.082 8.6753 "Nigeria"),
    ("KE", countryCoord (-0.0236) 37.9062 "Kenya"),
    ("ET", countryCoord 9.145 40.4897 "Ethiopia"),
    ("GH", countryCoord 7.9465 (-1.0232) "Ghana"),
    ("TZ", countryCoord (-6.369) 34.8888 "Tanzania"),
    ("DZ", countryCoord 28.0339 1.6596 "Algeria"),
    ("MA", countryCoord 31.7917 (-7.0926) "Morocco"),
    ("AO", countryCoord (-11.2027) 17.8739 "Angola"),
    ("SD", countryCoord 12.8628 30.2176 "Sudan"),
    ("UG", countryCoord 1.3733 32.2903 "Uganda"),
    ("TN", countryCoord 33.8869 9.5375 "Tunisia"),
    ("ZW", countryCoord (-19.0154) 29.1549 "Zimbabwe"),
    ("LY", countryCoord 26.3351 17.2283 "Libya"),
    ("CM", countryCoord 7.3697 12.3547 "Cameroon"),
    ("SN", countryCoord 14.4974 (-14.4524) "Senegal"),
    ("AU", countryCoord (-25.2744) 133.7751 "Australia"),
    ("NZ", countryCoord (-40.9006) 174.886 "New Zealand"),
    ("PG", countryCoord (-6.315) 143.9555 "Papua New Guinea"),
    ("FJ", countryCoord (-17.7134) 178.065 "Fiji"),
    ("GT", countryCoord 15.7835 (-90.2308) "Guatemala"),
    ("CU", countryCoord 21.5218 (-77.7812) "Cuba"),
    ("HT", countryCoord 18.9712 (-72.2852) "Haiti"),
    ("DO", countryCoord 18.7357 (-70.1627) "Dominican Republic"),
    ("HN", countryCoord 15.2 (-86.2419) "Honduras"),
    ("SV", countryCoord 13.7942 (-88.8965) "El Salvador"),
    ("NI", countryCoord 12.8654 (-85.2072) "Nicaragua"),
    ("CR", countryCoord 9.7489 (-83.7534) "Costa Rica"),
    ("PA", countryCoord 8.538 (-80.7821) "Panama"),
    ("JM", countryCoord 18.1096 (-77.2975) "Jamaica"),
    ("IR", countryCoord 32.4279 53.688 "Iran"),
    ("SY", countryCoord 34.8021 38.9968 "Syria"),
    ("YE", countryCoord 15.5527 48.5164 "Yemen"),
    ("OM", countryCoord 21.4735 55.9754 "Oman"),
    ("KW", countryCoord 29.3117 47.4818 "Kuwait"),
    ("QA", countryCoord 25.3548 51.1839 "Qatar"),
    ("BH", countryCoord 26.0667 50.5577 "Bahrain"),
    ("LB", countryCoord 33.8547 35.8623 "Lebanon")
  ]

/-- Property lookup on the coordinate record object: the value stored
under the key, if present (JavaScript indexing returning `undefined`
when the key is absent is modelled by `none`). -/
def coordLookup : List (String × CountryCoordinate) → String → Option CountryCoordinate
  | [], _ => none
  | (k, v) :: rest, c => if k = c then some v else coordLookup rest c

/-- ASCII uppercase of one character, as `String.prototype.toUpperCase`
acts on the 2-letter codes this table uses. -/
def asciiUpperChar (c : Char) : Char :=
  if 'a' ≤ c ∧ c ≤ 'z' then Char.ofNat (c.toNat - 32) else c

/-- `jsToUpperCase countryCodeCase()`, modelled character-wise over ASCII. -/
def jsToUpperCase (s : String) : String := ⟨s.data.map asciiUpperChar⟩

/-- `getCountryCoordinates` (country-coordinates.ts, lines 145-150):
upper-case the code, index the table, and fall back to
`{lat: 0, lng: 0, name: countryCode}` when the code is unknown. -/
def getCountryCoordinates (countryCode : String) : CountryCoordinate :=
  match coordLookup COUNTRY_COORDINATES (jsToUpperCase countryCode) with
  | some coords => coords
  | none => ⟨0, 0, countryCode⟩

/-- The max-finding loop at the top of `transformToGlobePoints`
(globe-chart.component.ts, lines 268-274): `maxEmissions` starts at `0`
and is replaced whenever a strictly larger total is seen. -/
def maxEmissionsOf (m : CountryMap) : ℚ :=
  m.foldl (fun mx kv => if mx < kv.2.totalEmissions then kv.2.totalEmissions else mx) 0

/-- `const normalizedEmissions = data.totalEmissions / maxEmissions`
(globe-chart.component.ts, line 280) — a bare JavaScript division with no
guard on `maxEmissions`. -/
def normalizedFor (maxE total : ℚ) : JSNum := jsDivQ total maxE

/-- `const size = 0.05 + normalizedEmissions * 0.3`
(globe-chart.component.ts, line 281). -/
def sizeFor (n : JSNum) : JSNum := jsAddQ 0.05 (jsMulQ n 0.3)

/-- `getColorForEmissions` (globe-chart.component.ts, lines 307-318):
four-band step function on the normalized value, via JavaScript
strict-less-than comparisons. -/
def getColorForEmissions (normalized : JSNum) : String :=
  if jsLt normalized (JSNum.num 0.25) then "#00ff00"
  else if jsLt normalized (JSNum.num 0.5) then "#ffff00"
  else if jsLt normalized (JSNum.num 0.75) then "#ff8800"
  else "#ff0000"

/-- One element of the `GlobePointData[]` array built by
`transformToGlobePoints`.  The `label` field of the source (a tooltip
HTML string rendered from the same data with locale-formatted numbers)
is presentation-only and not modelled. -/
structure GlobePoint where
  lat : ℚ
  lng : ℚ
  country : String
  totalEmissions : ℚ
  size : JSNum
  color : String
deriving DecidableEq, Repr

/-- `transformToGlobePoints` (globe-chart.component.ts, lines 263-302):
compute the batch maximum, then push one point per map entry (the
`forEach` over a `Map` visits entries in insertion order, so the output
is a map over the entry list). -/
def transformToGlobePoints (countryData : CountryMap) : List GlobePoint :=
  let maxEmissions := maxEmissionsOf countryData
  countryData.map (fun kv =>
    let coords := getCountryCoordinates kv.2.country
    let normalizedEmissions := normalizedFor maxEmissions kv.2.totalEmissions
    { lat := coords.lat
      lng := coords.lng
      country := kv.2.country
      totalEmissions := kv.2.totalEmissions
      size := sizeFor normalizedEmissions
      color := getColorForEmissions normalizedEmissions })

theorem maxEmissionsOf_loop_le (m : CountryMap) :
    ∀ a : ℚ,
      a ≤ m.foldl (fun mx kv => if mx < kv.2.totalEmissions then kv.2.totalEmissions else mx) a := by
  induction m with
  | nil => intro a; simp
  | cons kv tl ih =>
      intro a
      by_cases h : a < kv.2.totalEmissions
      · calc a ≤ kv.2.totalEmissions := le_of_lt h
          _ ≤ _ := by simpa [h] using ih kv.2.totalEmissions
      · simpa [h] using ih a

theorem maxEmissionsOf_mem_le (m : CountryMap) :
    ∀ (a : ℚ) (kv : String × CountryRollup), kv ∈ m →
      kv.2.totalEmissions ≤
        m.foldl (fun mx kv => if mx < kv.2.totalEmissions then kv.2.totalEmissions else mx) a := by
  induction m with
  | nil => intro a kv h; cases h
  | cons hd tl ih =>
      intro a kv h
      rcases List.mem_cons.mp h with h | h
      · subst h
        by_cases hlt : a < kv.2.totalEmissions
        · simpa [hlt] using maxEmissionsOf_loop_le tl kv.2.totalEmissions
        · have hle : kv.2.totalEmissions ≤ a := le_of_not_lt hlt
          calc kv.2.totalEmissions ≤ a := hle
            _ ≤ _ := by simpa [hlt] using maxEmissionsOf_loop_le tl a
      · by_cases hlt : a < hd.2.totalEmissions <;> simpa [hlt] using ih _ kv h

/-- Every total in the batch is bounded by the computed maximum. -/
theorem totalEmissions_le_maxEmissionsOf (m : CountryMap) (kv : String × CountryRollup)
    (h : kv ∈ m) : kv.2.totalEmissions ≤ maxEmissionsOf m :=
  maxEmissionsOf_mem_le m 0 kv h

/-- The computed maximum is nonnegative (it starts at `0`). -/
theorem maxEmissionsOf_nonneg (m : CountryMap) : 0 ≤ maxEmissionsOf m :=
  maxEmissionsOf_loop_le m 0

/-- The component state read and written by the event handlers and the
render loop.  Nullable Three.js resources are `Option` fields (the scene
is carried with its child count); the `loading` / `error` signals are
presentation-only and not modelled.  `hoveredCountry` mirrors the
component signal of the same name.  `clickPathCount` instruments the
number of `handleCountryClick` invocations (the observable for click
classification), and `emittedSelected` / `emittedHovered` log the
component outputs. -/
structure GlobeState where
  isBrowser : Bool
  hoveredCountry : Option String
  renderer : Option Unit
  camera : Option Unit
  scene : Option ℕ
  globe : Option Unit
  raycaster : Option Unit
  resizeObserver : Option Unit
  animationFrameId : Option ℕ
  mouse : ℚ × ℚ
  isUserInteracting : Bool
  mouseDownTime : ℤ
  targetRotation : ℚ × ℚ
  currentRotation : ℚ × ℚ
  globeRotation : ℚ × ℚ
  cameraDistance : ℚ
  clickPathCount : ℕ
  emittedSelected : List String
  emittedHovered : List (Option String)
deriving DecidableEq, Repr

/-- The component state right after construction: every resource is
null, `hoveredCountry` is null, rotations are zero, nothing has been
emitted.  (`mouse` is a null `Vector2` in the source until the globe is
set up; it is carried as the origin here and only ever read behind the
resource guards.) -/
def initialGlobeState (isBrowser : Bool) : GlobeState :=
  { isBrowser := isBrowser
    hoveredCountry := none
    renderer := none
    camera := none
    scene := none
    globe := none
    raycaster := none
    resizeObserver := none
    animationFrameId := none
    mouse := (0, 0)
    isUserInteracting := false
    mouseDownTime := 0
    targetRotation := (0, 0)
    currentRotation := (0, 0)
    globeRotation := (0, 0)
    cameraDistance := 250
    clickPathCount := 0
    emittedSelected := []
    emittedHovered := [] }

/-- A mouse event as consumed by the handlers: client coordinates,
movement deltas, and the `buttons` bitmask. -/
structure MouseEvt where
  clientX : ℚ
  clientY : ℚ
  movementX : ℚ
  movementY : ℚ
  buttons : ℕ
deriving DecidableEq, Repr

/-- The bounding rectangle of the renderer canvas. -/
structure Rect where
  left : ℚ
  top : ℚ
  width : ℚ
  height : ℚ
deriving DecidableEq, Repr

/-- `detectHoveredCountry` (globe-chart.component.ts, lines 410-420):
guards on raycaster/camera/scene/globe, raycasts, and reads the points
data into a local — but never writes `hoveredCountry` and never emits, so
on the state it is the identity. -/
def detectHoveredCountry (s : GlobeState) : GlobeState := s

/-- `handleCountryClick` (globe-chart.component.ts, lines 425-430):
emit `countrySelected` only when the `hoveredCountry` signal is
non-null.  `clickPathCount` instruments the invocation itself. -/
def handleCountryClick (s : GlobeState) : GlobeState :=
  let s := { s with clickPathCount := s.clickPathCount + 1 }
  match s.hoveredCountry with
  | some c => { s with emittedSelected := s.emittedSelected ++ [c] }
  | none => s

/-- `onMouseMove` (globe-chart.component.ts, lines 355-371): bail out if
renderer/camera/scene are null; update the normalized mouse position
from the canvas rectangle; while the primary button is held during an
interaction, accumulate the movement deltas into the target rotation
(clamping pitch to [-PI/2, PI/2]); finally run hover detection. -/
def onMouseMove (rect : Rect) (e : MouseEvt) (s : GlobeState) : GlobeState :=
  if s.renderer = none ∨ s.camera = none ∨ s.scene = none then s
  else
    let s := { s with
      mouse := (((e.clientX - rect.left) / rect.width) * 2 - 1,
                -((e.clientY - rect.top) / rect.height) * 2 + 1) }
    let s :=
      if s.isUserInteracting ∧ e.buttons = 1 then
        let ty := s.targetRotation.2 + e.movementX * 0.005
        let tx := s.targetRotation.1 + e.movementY * 0.005
        let tx := max (-(mathPI / 2)) (min (mathPI / 2) tx)
        { s with targetRotation := (tx, ty) }
      else s
    detectHoveredCountry s

/-- `onMouseDown` (globe-chart.component.ts, lines 376-379): mark the
interaction and record the press timestamp (the value `Date.now()`
returns inside the handler is passed in as `now`). -/
def onMouseDown (now : ℤ) (s : GlobeState) : GlobeState :=
  { s with isUserInteracting := true, mouseDownTime := now }

/-- `onMouseUp` (globe-chart.component.ts, lines 384-391): end the
interaction, then invoke the click path iff the press lasted less than
200 ms — the recorded movement plays no part in the classification. -/
def onMouseUp (now : ℤ) (s : GlobeState) : GlobeState :=
  let s := { s with isUserInteracting := false }
  if now - s.mouseDownTime < 200 then handleCountryClick s else s

/-- `onTouchStart` (globe-chart.component.ts, lines 396-401). -/
def onTouchStart (numTouches : ℕ) (now : ℤ) (s : GlobeState) : GlobeState :=
  if numTouches = 1 then { s with isUserInteracting := true, mouseDownTime := now } else s

/-- `onTouchMove` (globe-chart.component.ts, lines 406-408): an empty
body. -/
def onTouchMove (s : GlobeState) : GlobeState := s

/-- A pointer event delivered to the component's listeners, tagged with
the value `Date.now()` would return inside the handler. -/
inductive PtrEvent where
  | mouseMove (e : MouseEvt)
  | mouseDown (now : ℤ)
  | mouseUp (now : ℤ)
  | touchStart (numTouches : ℕ) (now : ℤ)
  | touchMove
deriving DecidableEq, Repr

/-- Dispatch one pointer event to its handler. -/
def stepEvent (rect : Rect) (s : GlobeState) : PtrEvent → GlobeState
  | PtrEvent.mouseMove e => onMouseMove rect e s
  | PtrEvent.mouseDown now => onMouseDown now s
  | PtrEvent.mouseUp now => onMouseUp now s
  | PtrEvent.touchStart n now => onTouchStart n now s
  | PtrEvent.touchMove => onTouchMove s

/-- Run a sequence of pointer events through the handlers. -/
def runEvents (rect : Rect) (s : GlobeState) : List PtrEvent → GlobeState
  | [] => s
  | ev :: rest => runEvents rect (stepEvent rect s ev) rest

/-- `focusOnCountry` (globe-chart.component.ts, lines 435-443): replace
the target rotation with the angles derived from the stored coordinates
(`targetY = (-lng * Math.PI) / 180`, `targetX = (lat * Math.PI) / 180`),
bypassing the drag-delta path entirely. -/
def focusOnCountry (countryCode : String) (s : GlobeState) : GlobeState :=
  let coords := getCountryCoordinates countryCode
  let targetY := (-coords.lng * mathPI) / 180
  let targetX := (coords.lat * mathPI) / 180
  { s with targetRotation := (targetX, targetY) }

/-- The component state together with the host's animation-frame queue:
`pending` is the callback scheduled by `requestAnimationFrame` (if not
yet fired or cancelled), `nextFrameId` feeds fresh handles, and
`tickCount` counts executed render ticks. -/
structure World where
  state : GlobeState
  pending : Option ℕ
  nextFrameId : ℕ
  tickCount : ℕ
deriving DecidableEq, Repr

/-- `animate` (globe-chart.component.ts, lines 476-500): bail out off
the browser; schedule the next tick and retain its handle; damp the
current rotation toward the target by 10 percent per axis; mirror the
rotation onto the globe object if present; advance the auto-rotation
increment when no interaction is in progress; then render (a no-op on
the modelled state) if the scene, camera and renderer are all alive. -/
def animate (w : World) : World :=
  if w.state.isBrowser = false then w
  else
    let fid := w.nextFrameId
    let s := { w.state with animationFrameId := some fid }
    let cx := s.currentRotation.1 + (s.targetRotation.1 - s.currentRotation.1) * 0.1
    let cy := s.currentRotation.2 + (s.targetRotation.2 - s.currentRotation.2) * 0.1
    let s := { s with currentRotation := (cx, cy) }
    let s := match s.globe with
      | some _ => { s with globeRotation := (cx, cy) }
      | none => s
    let s :=
      if s.isUserInteracting then s
      else { s with targetRotation := (s.targetRotation.1, s.targetRotation.2 + 0.001) }
    { state := s
      pending := some fid
      nextFrameId := fid + 1
      tickCount := w.tickCount + 1 }

/-- The host fires the pending animation frame, if any: the callback is
dequeued and `animate` runs. -/
def fireFrame (w : World) : World :=
  match w.pending with
  | some _ => animate { w with pending := none }
  | none => w

/-- `cancelAnimationFrame`: drop the pending callback when its handle
matches. -/
def cancelFrame (pending : Option ℕ) (fid : ℕ) : Option ℕ :=
  if pending = some fid then none else pending

/-- The `while` loop of `cleanup` that removes the scene's children one
at a time until none remain. -/
def drainChildren : ℕ → ℕ
  | 0 => 0
  | n + 1 => drainChildren n

/-- `cleanup` (globe-chart.component.ts, lines 502-543), in source
order: cancel the retained animation frame, disconnect the resize
observer, detach the globe from the scene, dispose the renderer, drain
the scene's children and drop the scene, and null the camera and
raycaster.  Every access to a nullable resource in the source sits
behind the corresponding null guard, which the match structure below
mirrors, so the function is total over all states — including the
never-initialized one. -/
def cleanup (w : World) : World :=
  let s := w.state
  let (p, s) :=
    match s.animationFrameId with
    | some fid => (cancelFrame w.pending fid, { s with animationFrameId := none })
    | none => (w.pending, s)
  let s :=
    match s.resizeObserver with
    | some _ => { s with resizeObserver := none }
    | none => s
  let s :=
    match s.globe with
    | some _ => { s with scene := s.scene.map (fun n => n - 1), globe := none }
    | none => s
  let s :=
    match s.renderer with
    | some _ => { s with renderer := none }
    | none => s
  let s :=
    match s.scene with
    | some numChildren => { s with scene := some (drainChildren numChildren) }
    | none => s
  let s :=
    match s.scene with
    | some _ => { s with scene := none }
    | none => s
  { w with state := { s with camera := none, raycaster := none }, pending := p }

/-- Claim C3 (confirmed): for every list of emission records the
aggregator produces exactly one rollup per distinct country code (the
key list has no duplicates, and a key is present iff the code occurs in
the input), that rollup's total is the sum of the `emissions` fields of
the records with that code and its count is the number of such records,
and the empty list yields the empty mapping.  Purity holds by
construction: the aggregator is a plain function of its input list. -/
theorem claim_C3_aggregate (es : List Emission) (c : String) :
    ((aggregateEmissionsByCountry es).map Prod.fst).Nodup
    ∧ mapLookup (aggregateEmissionsByCountry es) c =
        (if c ∈ es.map (fun e => e.country) then
          some ⟨c, emissionsSumFor c es, recordCountFor c es⟩
         else none)
    ∧ aggregateEmissionsByCountry [] = [] :=
  ⟨aggregate_keys_nodup es, mapLookup_aggregate es c, rfl⟩

/-- Claim C5 (confirmed): on normalized values in [0,1] the color
mapping is the four-band step function with bands closed below and open
above, the last band closed. -/
theorem claim_C5_color_bands (q : ℚ) (_h0 : 0 ≤ q) (_h1 : q ≤ 1) :
    (q < 0.25 → getColorForEmissions (JSNum.num q) = "#00ff00")
    ∧ (0.25 ≤ q → q < 0.5 → getColorForEmissions (JSNum.num q) = "#ffff00")
    ∧ (0.5 ≤ q → q < 0.75 → getColorForEmissions (JSNum.num q) = "#ff8800")
    ∧ (0.75 ≤ q → getColorForEmissions (JSNum.num q) = "#ff0000") := by
  refine ⟨?_, ?_, ?_, ?_⟩
  · intro h
    simp [getColorForEmissions, jsLt, h]
  · intro hlo hhi
    have hn : ¬ q < 0.25 := not_lt.mpr hlo
    simp [getColorForEmissions, jsLt, hn, hhi]
  · intro hlo hhi
    have hn1 : ¬ q < 0.25 := not_lt.mpr (by linarith)
    have hn2 : ¬ q < 0.5 := not_lt.mpr hlo
    simp [getColorForEmissions, jsLt, hn1, hn2, hhi]
  · intro hlo
    have hn1 : ¬ q < 0.25 := not_lt.mpr (by linarith)
    have hn2 : ¬ q < 0.5 := not_lt.mpr (by linarith)
    have hn3 : ¬ q < 0.75 := not_lt.mpr hlo
    simp [getColorForEmissions, jsLt, hn1, hn2, hn3]

/-- Witness for C5: at the band boundary 0.25 the color is yellow. -/
theorem claim_C5_witness :
    (0 : ℚ) ≤ 0.25 ∧ (0.25 : ℚ) ≤ 1
    ∧ getColorForEmissions (JSNum.num 0.25) = "#ffff00" :=
  ⟨by norm_num, by norm_num,
    (claim_C5_color_bands 0.25 (by norm_num) (by norm_num)).2.1 (by norm_num) (by norm_num)⟩

/-- Claim C6 (confirmed): the coordinate lookup is total — a code whose
upper-cased form is in the table resolves to that entry, any other code
resolves to latitude 0, longitude 0 with the original code string as the
name, and no entry is ever dropped: the transformation emits exactly one
render point per rollup. -/
theorem claim_C6_lookup_total (code : String) (c : CountryCoordinate) (m : CountryMap) :
    (coordLookup COUNTRY_COORDINATES (jsToUpperCase code) = some c →
      getCountryCoordinates code = c)
    ∧ (coordLookup COUNTRY_COORDINATES (jsToUpperCase code) = none →
      getCountryCoordinates code = ⟨0, 0, code⟩)
    ∧ (transformToGlobePoints m).length = m.length := by
  refine ⟨?_, ?_, ?_⟩
  · intro h
    simp [getCountryCoordinates, h]
  · intro h
    simp [getCountryCoordinates, h]
  · simp [transformToGlobePoints]

/-- Witness for C6: the unknown code "ZZ" resolves to the origin with
"ZZ" as its display name. -/
theorem claim_C6_witness :
    coordLookup COUNTRY_COORDINATES (jsToUpperCase "ZZ") = none
    ∧ getCountryCoordinates "ZZ" = ⟨0, 0, "ZZ"⟩ :=
  ⟨by decide, (claim_C6_lookup_total "ZZ" ⟨0, 0, ""⟩ []).2.1 (by decide)⟩

/-- Claim C7 (confirmed): a focus-on-country request for a code with
stored coordinates sets the target rotation directly to
pitch = lat * PI / 180 and yaw = -lng * PI / 180 (with PI the source's
`Math.PI` constant), replacing the previous target outright rather than
going through drag deltas. -/
theorem claim_C7_focus (code : String) (c : CountryCoordinate) (s : GlobeState)
    (h : coordLookup COUNTRY_COORDINATES (jsToUpperCase code) = some c) :
    (focusOnCountry code s).targetRotation
      = ((c.lat * mathPI) / 180, (-c.lng * mathPI) / 180) := by
  simp [focusOnCountry, getCountryCoordinates, h]

/-- Witness for C7: focusing on "US" lands on the stored United States
coordinates converted to rotation angles. -/
theorem claim_C7_witness :
    coordLookup COUNTRY_COORDINATES (jsToUpperCase "US")
      = some (countryCoord 37.0902 (-95.7129) "United States")
    ∧ (focusOnCountry "US" (initialGlobeState true)).targetRotation
      = ((37.0902 * mathPI) / 180, (-(-95.7129) * mathPI) / 180) := by
  have h : coordLookup COUNTRY_COORDINATES (jsToUpperCase "US")
      = some (countryCoord 37.0902 (-95.7129) "United States") := by rfl
  refine ⟨h, ?_⟩
  have h2 := claim_C7_focus "US" (countryCoord 37.0902 (-95.7129) "United States")
    (initialGlobeState true) h
  simpa [countryCoord] using h2

/-- A batch whose only rollup has total 0: the batch maximum is 0 and
the unguarded division is 0/0. -/
def zeroBatch : CountryMap := [("US", ⟨"US", 0, 1⟩)]

/-- A batch with two rollups of positive maximum, used as a witness
input. -/
def posBatch : CountryMap := [("US", ⟨"US", 2, 1⟩), ("CA", ⟨"CA", 1, 1⟩)]

/-- Counterexample to C1 as stated: on the all-zero batch the code's
normalized value is NaN (0/0), not the claimed 0 — there is no
division-by-zero guard in `transformToGlobePoints`. -/
theorem claim_C1_counterexample :
    maxEmissionsOf zeroBatch = 0
    ∧ normalizedFor (maxEmissionsOf zeroBatch) 0 = JSNum.nan
    ∧ JSNum.nan ≠ JSNum.num 0 := by
  have hmax : maxEmissionsOf zeroBatch = 0 := by
    simp [maxEmissionsOf, zeroBatch]
  refine ⟨hmax, ?_, by simp⟩
  rw [hmax]
  simp [normalizedFor, jsDivQ]

/-- Claim C1 as amended: for a non-empty batch of nonnegative totals,
when the batch maximum is positive every entry's normalized value is the
exact quotient total / max and lies in [0,1]; when the batch maximum is
zero (all totals zero) every entry
normalizes to NaN — the code has no guard, so the spec's "defined as 0"
clause does not hold. -/
theorem claim_C1_normalization (m : CountryMap) (_hne : m ≠ [])
    (hnn : ∀ kv ∈ m, 0 ≤ kv.2.totalEmissions) :
    (0 < maxEmissionsOf m →
      ∀ kv ∈ m,
        normalizedFor (maxEmissionsOf m) kv.2.totalEmissions
          = JSNum.num (kv.2.totalEmissions / maxEmissionsOf m)
        ∧ 0 ≤ kv.2.totalEmissions / maxEmissionsOf m
        ∧ kv.2.totalEmissions / maxEmissionsOf m ≤ 1)
    ∧ (maxEmissionsOf m = 0 →
      ∀ kv ∈ m, normalizedFor (maxEmissionsOf m) kv.2.totalEmissions = JSNum.nan) := by
  constructor
  · intro hpos kv hkv
    have hne2 : maxEmissionsOf m ≠ 0 := ne_of_gt hpos
    refine ⟨by simp [normalizedFor, jsDivQ, hne2], ?_, ?_⟩
    · exact div_nonneg (hnn kv hkv) (le_of_lt hpos)
    · exact (div_le_one hpos).mpr (totalEmissions_le_maxEmissionsOf m kv hkv)
  · intro hzero kv hkv
    have h1 : kv.2.totalEmissions ≤ 0 := by
      have := totalEmissions_le_maxEmissionsOf m kv hkv
      rw [hzero] at this
      exact this
    have h2 : kv.2.totalEmissions = 0 := le_antisymm h1 (hnn kv hkv)
    simp [normalizedFor, jsDivQ, hzero, h2]

/-- Witness for the amended C1: on `posBatch` (max 2) the rollup with
total 1 normalizes to the exact quotient 1/2. -/
theorem claim_C1_witness :
    posBatch ≠ []
    ∧ 0 < maxEmissionsOf posBatch
    ∧ normalizedFor (maxEmissionsOf posBatch) 1 = JSNum.num (1 / 2) := by
  have hne : posBatch ≠ [] := by simp [posBatch]
  have hnn : ∀ kv ∈ posBatch, 0 ≤ kv.2.totalEmissions := by
    intro kv hkv
    simp only [posBatch, List.mem_cons, List.not_mem_nil, or_false] at hkv
    rcases hkv with h | h <;> subst h <;> norm_num
  have hmax : maxEmissionsOf posBatch = 2 := by norm_num [maxEmissionsOf, posBatch]
  have hpos : 0 < maxEmissionsOf posBatch := by rw [hmax]; norm_num
  have happ := (claim_C1_normalization posBatch hne hnn).1 hpos ("CA", ⟨"CA", 1, 1⟩)
    (by simp [posBatch])
  have h1 : normalizedFor (maxEmissionsOf posBatch) 1
      = JSNum.num (1 / maxEmissionsOf posBatch) := happ.1
  rw [hmax] at h1
  exact ⟨hne, hpos, h1⟩

/-- Counterexample to C4 as stated: on the all-zero batch the encoded
point's size is NaN, not a number in [0.05, 0.35]. -/
theorem claim_C4_counterexample :
    (transformToGlobePoints zeroBatch).map (fun p => p.size) = [JSNum.nan]
    ∧ JSNum.nan ≠ JSNum.num 0.05 := by
  constructor
  · simp [transformToGlobePoints, zeroBatch, maxEmissionsOf, normalizedFor, jsDivQ,
      sizeFor, jsMulQ, jsAddQ]
  · simp

/-- Claim C4 as amended: for a batch of nonnegative totals with positive
maximum, each encoded point's size is exactly 0.05 + normalized * 0.3,
lies in [0.05, 0.35], and is monotonically non-decreasing in the total;
when the maximum is zero the sizes are NaN instead (see the
counterexample). -/
theorem claim_C4_size (m : CountryMap)
    (hnn : ∀ kv ∈ m, 0 ≤ kv.2.totalEmissions) (hpos : 0 < maxEmissionsOf m) :
    ((transformToGlobePoints m).map (fun p => p.size)
        = m.map (fun kv => sizeFor (normalizedFor (maxEmissionsOf m) kv.2.totalEmissions)))
    ∧ (∀ kv ∈ m,
        sizeFor (normalizedFor (maxEmissionsOf m) kv.2.totalEmissions)
          = JSNum.num (0.05 + kv.2.totalEmissions / maxEmissionsOf m * 0.3)
        ∧ 0.05 ≤ 0.05 + kv.2.totalEmissions / maxEmissionsOf m * 0.3
        ∧ 0.05 + kv.2.totalEmissions / maxEmissionsOf m * 0.3 ≤ 0.35)
    ∧ (∀ kv ∈ m, ∀ kv' ∈ m, kv.2.totalEmissions ≤ kv'.2.totalEmissions →
        0.05 + kv.2.totalEmissions / maxEmissionsOf m * 0.3
          ≤ 0.05 + kv'.2.totalEmissions / maxEmissionsOf m * 0.3) := by
  have hne2 : maxEmissionsOf m ≠ 0 := ne_of_gt hpos
  refine ⟨?_, ?_, ?_⟩
  · simp [transformToGlobePoints]
  · intro kv hkv
    have ht0 : 0 ≤ kv.2.totalEmissions / maxEmissionsOf m :=
      div_nonneg (hnn kv hkv) (le_of_lt hpos)
    have ht1 : kv.2.totalEmissions / maxEmissionsOf m ≤ 1 :=
      (div_le_one hpos).mpr (totalEmissions_le_maxEmissionsOf m kv hkv)
    refine ⟨by simp [sizeFor, normalizedFor, jsDivQ, hne2, jsMulQ, jsAddQ], ?_, ?_⟩
    · nlinarith
    · nlinarith
  · intro kv hkv kv' hkv' hle
    gcongr

/-- Witness for the amended C4: on `posBatch` (max 2) the rollup with
total 1 receives size 0.2 = 0.05 + (1/2) * 0.3. -/
theorem claim_C4_witness :
    (∀ kv ∈ posBatch, 0 ≤ kv.2.totalEmissions)
    ∧ 0 < maxEmissionsOf posBatch
    ∧ sizeFor (normalizedFor (maxEmissionsOf posBatch) 1) = JSNum.num 0.2 := by
  have hnn : ∀ kv ∈ posBatch, 0 ≤ kv.2.totalEmissions := by
    intro kv hkv
    simp only [posBatch, List.mem_cons, List.not_mem_nil, or_false] at hkv
    rcases hkv with h | h <;> subst h <;> norm_num
  have hmax : maxEmissionsOf posBatch = 2 := by norm_num [maxEmissionsOf, posBatch]
  have hpos : 0 < maxEmissionsOf posBatch := by rw [hmax]; norm_num
  have happ := ((claim_C4_size posBatch hnn hpos).2.1 ("CA", ⟨"CA", 1, 1⟩)
    (by simp [posBatch])).1
  have h1 : sizeFor (normalizedFor (maxEmissionsOf posBatch) 1)
      = JSNum.num (0.05 + 1 / maxEmissionsOf posBatch * 0.3) := happ
  refine ⟨hnn, hpos, ?_⟩
  rw [h1, hmax]
  norm_num

/-- A canvas rectangle used for concrete runs. -/
def rect0 : Rect := ⟨0, 0, 100, 100⟩

/-- The component state after a successful initialization: all Three.js
resources alive, nothing hovered, nothing emitted. -/
def postInitState : GlobeState :=
  { initialGlobeState true with
      renderer := some (), camera := some (), scene := some 0,
      globe := some (), raycaster := some () }

/-- A primary-button mouse move with a horizontal movement delta of 10.
-/
def dragMove : MouseEvt := ⟨50, 50, 10, 0, 1⟩

/-- Pointer-down at t = 0, a recorded movement delta of (10, 0) while
the button is held, pointer-up at t = 50 ms. -/
def dragSeq : List PtrEvent :=
  [PtrEvent.mouseDown 0, PtrEvent.mouseMove dragMove, PtrEvent.mouseUp 50]

/-- Counterexample to C2 as stated: on the spec's own scenario —
pointer-down at t=0, movement (10,0) recorded (the target rotation
visibly moved by 10 * 0.005 = 1/20), pointer-up at t=50ms — the
pointer-up handler does invoke the click path, because the source
classifies purely by elapsed time; no countrySelected is emitted only
because the hover candidate is never set. -/
theorem claim_C2_counterexample :
    (runEvents rect0 postInitState dragSeq).clickPathCount = 1
    ∧ (runEvents rect0 postInitState dragSeq).targetRotation.2 = 1 / 20
    ∧ (runEvents rect0 postInitState dragSeq).emittedSelected = [] := by
  refine ⟨rfl, ?_, rfl⟩
  show (0 : ℚ) + 10 * 0.005 = 1 / 20
  norm_num

/-- Claim C2 as amended: click classification is purely time-based —
the pointer-up handler invokes the click path iff the elapsed time since
pointer-down is under 200 ms, regardless of any recorded movement
(pointer-move changes neither the press timestamp nor the click
counter), and no countrySelected event is emitted when the hover
candidate is null (which it always is, see C10). -/
theorem claim_C2_click_timing (s : GlobeState) (now : ℤ) (rect : Rect) (e : MouseEvt)
    (hh : s.hoveredCountry = none) :
    ((onMouseUp now s).clickPathCount
        = s.clickPathCount + if now - s.mouseDownTime < 200 then 1 else 0)
    ∧ (onMouseUp now s).emittedSelected = s.emittedSelected
    ∧ (onMouseMove rect e s).clickPathCount = s.clickPathCount
    ∧ (onMouseMove rect e s).mouseDownTime = s.mouseDownTime := by
  refine ⟨?_, ?_, ?_, ?_⟩
  · unfold onMouseUp handleCountryClick
    by_cases h : now - s.mouseDownTime < 200 <;> simp [h, hh]
  · unfold onMouseUp handleCountryClick
    by_cases h : now - s.mouseDownTime < 200 <;> simp [h, hh]
  · unfold onMouseMove detectHoveredCountry
    split_ifs <;> simp [apply_ite]
  · unfold onMouseMove detectHoveredCountry
    split_ifs <;> simp [apply_ite]

/-- Witness for the amended C2: from the initialized state a pointer-up
at t = 50 runs the click path exactly once. -/
theorem claim_C2_witness :
    postInitState.hoveredCountry = none
    ∧ (onMouseUp 50 postInitState).clickPathCount = postInitState.clickPathCount + 1 := by
  have h := (claim_C2_click_timing postInitState 50 rect0 dragMove rfl).1
  refine ⟨rfl, ?_⟩
  rw [h]
  norm_num [postInitState, initialGlobeState]

/-- One pointer event preserves the hover candidate and the hover log,
and — whenever the hover candidate is null — the selection log. -/
theorem stepEvent_preserve (rect : Rect) (ev : PtrEvent) (s : GlobeState) :
    (stepEvent rect s ev).hoveredCountry = s.hoveredCountry
    ∧ (stepEvent rect s ev).emittedHovered = s.emittedHovered
    ∧ (s.hoveredCountry = none →
        (stepEvent rect s ev).emittedSelected = s.emittedSelected) := by
  cases ev with
  | mouseMove e =>
      unfold stepEvent onMouseMove detectHoveredCountry
      split_ifs <;> refine ⟨?_, ?_, fun _ => ?_⟩ <;> simp [apply_ite]
  | mouseDown now => exact ⟨rfl, rfl, fun _ => rfl⟩
  | mouseUp now =>
      unfold stepEvent onMouseUp handleCountryClick
      by_cases h : now - s.mouseDownTime < 200
      · cases hsv : s.hoveredCountry with
        | none => simp [h, hsv]
        | some c => simp [h, hsv]
      · simp [h]
  | touchStart n now =>
      simp only [stepEvent]
      unfold onTouchStart
      split_ifs <;> exact ⟨rfl, rfl, fun _ => rfl⟩
  | touchMove => exact ⟨rfl, rfl, fun _ => rfl⟩

/-- Claim C10 (confirmed): from any state with a null hover candidate
and empty output logs — in particular the state right after construction,
initialized or not — no sequence of pointer events ever emits a
countrySelected or countryHovered event, and the hover candidate stays
null: the hit-testing path computes intersections but never stores a
result, so the click handler's guard never fires. -/
theorem claim_C10_no_events (rect : Rect) (evs : List PtrEvent) (s : GlobeState)
    (hh : s.hoveredCountry = none) (hs : s.emittedSelected = [])
    (hv : s.emittedHovered = []) :
    (runEvents rect s evs).hoveredCountry = none
    ∧ (runEvents rect s evs).emittedSelected = []
    ∧ (runEvents rect s evs).emittedHovered = [] := by
  induction evs generalizing s with
  | nil => exact ⟨hh, hs, hv⟩
  | cons ev rest ih =>
      have hp := stepEvent_preserve rect ev s
      exact ih (stepEvent rect s ev) (hp.1.trans hh) ((hp.2.2 hh).trans hs)
        (hp.2.1.trans hv)

/-- Witness for C10: a down-up pair on the freshly constructed component
emits nothing. -/
theorem claim_C10_witness :
    (initialGlobeState true).hoveredCountry = none
    ∧ (runEvents rect0 (initialGlobeState true)
        [PtrEvent.mouseDown 0, PtrEvent.mouseUp 100]).emittedSelected = [] :=
  ⟨rfl, (claim_C10_no_events rect0 [PtrEvent.mouseDown 0, PtrEvent.mouseUp 100]
      (initialGlobeState true) rfl rfl rfl).2.1⟩

/-- The world right after construction: no resources, no pending frame,
no ticks executed. -/
def initialWorld : World := ⟨initialGlobeState true, none, 0, 0⟩

/-- Explicit form of `cleanup` under the queue invariant that the
pending frame (if any) is exactly the retained handle: every resource
field is nulled and the pending frame is cancelled, while the rest of
the state is untouched. -/
theorem cleanup_eq (w : World) (h : w.pending = w.state.animationFrameId) :
    cleanup w =
      { state :=
          { w.state with
              animationFrameId := none, resizeObserver := none, globe := none,
              renderer := none, scene := none, camera := none, raycaster := none },
        pending := none, nextFrameId := w.nextFrameId, tickCount := w.tickCount } := by
  unfold cleanup cancelFrame
  cases hA : w.state.animationFrameId <;>
    cases hR : w.state.resizeObserver <;>
      cases hG : w.state.globe <;>
        cases hRe : w.state.renderer <;>
          cases hS : w.state.scene <;>
            simp_all

/-- Claim C8 (confirmed): teardown is idempotent and total — it runs
without error from any state (in particular the never-initialized one,
where every guard is simply skipped), a second call is a no-op, the
pending animation frame is cancelled, and no further render ticks occur:
the tick count is constant under any number of subsequent frame
firings. -/
theorem claim_C8_cleanup (w : World) (h : w.pending = w.state.animationFrameId) :
    cleanup (cleanup w) = cleanup w
    ∧ (cleanup w).pending = none
    ∧ (cleanup w).state.animationFrameId = none
    ∧ ∀ n : ℕ, (fireFrame^[n] (cleanup w)).tickCount = (cleanup w).tickCount := by
  have hw := cleanup_eq w h
  have hpend : (cleanup w).pending = none := by rw [hw]
  have hfid : (cleanup w).state.animationFrameId = none := by rw [hw]
  have hidem : cleanup (cleanup w) = cleanup w := by
    have h2 : (cleanup w).pending = (cleanup w).state.animationFrameId := by
      rw [hpend, hfid]
    rw [cleanup_eq (cleanup w) h2, hw]
  have hfix : fireFrame (cleanup w) = cleanup w := by
    unfold fireFrame
    rw [hpend]
  exact ⟨hidem, hpend, hfid, fun n => by rw [Function.iterate_fixed hfix n]⟩

/-- Witness for C8: tearing the freshly constructed (never-initialized)
world down twice is harmless, and three subsequent frame firings add no
ticks. -/
theorem claim_C8_witness :
    initialWorld.pending = initialWorld.state.animationFrameId
    ∧ cleanup (cleanup initialWorld) = cleanup initialWorld
    ∧ (fireFrame^[3] (cleanup initialWorld)).tickCount = (cleanup initialWorld).tickCount :=
  ⟨rfl, (claim_C8_cleanup initialWorld rfl).1,
    (claim_C8_cleanup initialWorld rfl).2.2.2 3⟩

/-- Claim C9 (confirmed): each render tick in the browser damps the
current rotation toward the target by exactly 10 percent of the
remaining delta on each axis (exponential easing), leaves the target
pitch alone, and advances the target yaw by the fixed auto-rotation
increment 0.001 exactly when no pointer interaction is in progress. -/
theorem claim_C9_animate (w : World) (h : w.state.isBrowser = true) :
    (animate w).state.currentRotation
      = (w.state.currentRotation.1
            + (w.state.targetRotation.1 - w.state.currentRotation.1) * 0.1,
         w.state.currentRotation.2
            + (w.state.targetRotation.2 - w.state.currentRotation.2) * 0.1)
    ∧ (animate w).state.targetRotation
      = (w.state.targetRotation.1,
         if w.state.isUserInteracting then w.state.targetRotation.2
         else w.state.targetRotation.2 + 0.001)
    ∧ (animate w).tickCount = w.tickCount + 1 := by
  unfold animate
  cases hg : w.state.globe <;> by_cases hi : w.state.isUserInteracting <;>
    simp [h, hg, hi]

/-- Witness for C9: one tick of the freshly constructed world (browser
platform, no interaction) leaves the target pitch at 0 and advances the
target yaw to 0.001. -/
theorem claim_C9_witness :
    initialWorld.state.isBrowser = true
    ∧ (animate initialWorld).state.targetRotation = (0, 0.001) := by
  have h := (claim_C9_animate initialWorld rfl).2.1
  refine ⟨rfl, ?_⟩
  rw [h]
  norm_num [initialWorld, initialGlobeState]

end GlobeChart
